import Mathlib

/-!
Verification of the SimpleITK transform facade layer
(`Code/Common/src/sitkTransform.cxx`, `Code/Common/src/sitkEuler3DTransform.cxx`).

The development shallowly embeds the copy-on-write `Transform` handle, the
kind/dimension dispatch (`Transform::InternalInitialization`), the pimple
backend heap with reference counts, and the Euler3D facade's bound-accessor
slots.  Parameter values are `double`s in the source; no arithmetic is ever
performed on them by this layer (pure get/set forwarding), so they are carried
here as `Int`.

The pimple backend class (`sitkPimpleTransform.hxx`) and the `Image` class are
part of the repository but their sources are not available here; their
operational semantics (ShallowCopy / DeepCopy / GetReferenceCount, image buffer
adoption) are modelled from the specification, as marked on the individual
definitions.
-/

namespace Sitk

/-- The dynamic (concrete) kind of an ITK transform object wrapped by a
backend, as distinguished by the dispatch in `Transform::InternalInitialization`
and by the `dynamic_cast` in `Euler3DTransform::InternalInitialization`. -/
inductive ConcreteKind where
  | identity
  | translation
  | scale
  | scaleLogarithmic
  | euler2D
  | euler3D
  | similarity2D
  | similarity3D
  | quaternionRigid
  | versor
  | versorRigid
  | affine
  | composite
  | displacementField
deriving DecidableEq, Repr

/-- Modelled from the spec: the `TransformEnum` of `sitkTransform.h` (the
header is not among the sources; the enumerator names are those used by
`sitkTransform.cxx`).  `sitkUnknown n` stands for an out-of-range integer
value stored in the enum, which C++ permits and which the dispatch switch
sends to its `default:` label. -/
inductive TransformEnum where
  | sitkIdentity
  | sitkTranslation
  | sitkScale
  | sitkScaleLogarithmic
  | sitkEuler
  | sitkSimilarity
  | sitkQuaternionRigid
  | sitkVersor
  | sitkVersorRigid
  | sitkAffine
  | sitkComposite
  | sitkDisplacementField
  | sitkUnknown (code : Nat)
deriving DecidableEq, Repr

/-- Modelled from the spec: the error taxonomy of §7 surfaced by
`sitkExceptionMacro` (the exception class lives outside the given sources). -/
inductive SitkError where
  | invalidArgument (msg : String)
  | unsupported (msg : String)
  | internalInconsistency (msg : String)
deriving DecidableEq, Repr

/-- One sub-transform held in a composite transform's queue, together with its
ITK "to optimize" flag. -/
structure SubTransform where
  kind : ConcreteKind
  params : List Int
  toOptimize : Bool
deriving DecidableEq, Repr

/-- The state of one type-erased backend: the concrete ITK transform object a
`PimpleTransform` wraps.  `queue` is populated only for composite transforms,
`field` (the identity of the adopted displacement-field buffer) only for
displacement-field transforms. -/
structure Backend where
  kind : ConcreteKind
  dim : Nat
  params : List Int
  fixedParams : List Int
  queue : List SubTransform
  field : Option Nat
deriving DecidableEq, Repr

/-- Length of the flat parameter vector of a freshly default-constructed ITK
transform of the given kind and dimension (external library defaults). -/
def numParams (k : ConcreteKind) (d : Nat) : Nat :=
  match k with
  | .identity => 0
  | .translation => d
  | .scale => d
  | .scaleLogarithmic => d
  | .euler2D => 3
  | .euler3D => 6
  | .similarity2D => 4
  | .similarity3D => 7
  | .quaternionRigid => 7
  | .versor => 3
  | .versorRigid => 6
  | .affine => d * d + d
  | .composite => 0
  | .displacementField => 0

/-- Length of the flat fixed-parameter vector (typically the center) of a
freshly default-constructed ITK transform (external library defaults). -/
def numFixedParams (k : ConcreteKind) (d : Nat) : Nat :=
  match k with
  | .identity => 0
  | .composite => 0
  | .displacementField => 0
  | _ => d

/-- The backend produced by default-constructing the ITK transform of the given
kind: the identity configuration (all parameters zero, empty queue). -/
def defaultBackend (k : ConcreteKind) (d : Nat) : Backend :=
  ⟨k, d, List.replicate (numParams k d) 0, List.replicate (numFixedParams k d) 0, [], none⟩

/-- `itk::CompositeTransform::IsTransformQueueEmpty` on a composite backend. -/
def IsTransformQueueEmpty (b : Backend) : Bool :=
  b.queue.isEmpty

/-- `itk::CompositeTransform::AddTransform`: appends a sub-transform to the
queue (ITK pushes the new transform's to-optimize flag as `true`). -/
def AddTransformSub (b : Backend) (t : SubTransform) : Backend :=
  { b with queue := b.queue ++ [t] }

/-- Modelled from the spec: `itk::CompositeTransform::SetAllTransformsToOptimizeOff`
(external collaborator) clears every sub-transform's to-optimize flag. -/
def SetAllTransformsToOptimizeOff (b : Backend) : Backend :=
  { b with queue := b.queue.map (fun t => { t with toOptimize := false }) }

/-- Sets the flag of the last (most recently added) element and clears all the
others. -/
def markOnlyLast : List SubTransform → List SubTransform
  | [] => []
  | [t] => [{ t with toOptimize := true }]
  | t :: u :: rest => { t with toOptimize := false } :: markOnlyLast (u :: rest)

/-- Modelled from the spec: `itk::CompositeTransform::SetOnlyMostRecentTransformToOptimizeOn`
(external collaborator) marks exactly the most recently added sub-transform as
optimizable. -/
def SetOnlyMostRecentTransformToOptimizeOn (b : Backend) : Backend :=
  { b with queue := markOnlyLast b.queue }

/-- `TransformTraits<double, d>::EulerTransformType` from `sitkTransform.cxx`
(only instantiated at `d = 2` and `d = 3`). -/
def eulerTransformKind (d : Nat) : ConcreteKind :=
  if d = 2 then .euler2D else .euler3D

/-- `TransformTraits<double, d>::SimilarityTransformType` from
`sitkTransform.cxx` (only instantiated at `d = 2` and `d = 3`). -/
def similarityTransformKind (d : Nat) : ConcreteKind :=
  if d = 2 then .similarity2D else .similarity3D

/-- `Transform::InternalInitialization<VDimension>(type, base)` from
`sitkTransform.cxx` lines 302-392: the dispatch switch that builds the backend
for a requested transform kind.  `base` is the optional already-constructed
external object (non-null only on the composite adopt-existing path). -/
def InternalInitialization (VDimension : Nat) (type : TransformEnum)
    (base : Option Backend) : Except SitkError Backend :=
  match type with
  | .sitkTranslation => .ok (defaultBackend .translation VDimension)
  | .sitkScale => .ok (defaultBackend .scale VDimension)
  | .sitkScaleLogarithmic => .ok (defaultBackend .scaleLogarithmic VDimension)
  | .sitkEuler => .ok (defaultBackend (eulerTransformKind VDimension) VDimension)
  | .sitkSimilarity => .ok (defaultBackend (similarityTransformKind VDimension) VDimension)
  | .sitkQuaternionRigid =>
      if VDimension ≠ 3 then
        .error (.invalidArgument "A sitkQuaternionRigid Transform only works for 3D!")
      else
        .ok (defaultBackend .quaternionRigid VDimension)
  | .sitkVersor =>
      if VDimension ≠ 3 then
        .error (.invalidArgument "A sitkVersor Transform only works for 3D!")
      else
        .ok (defaultBackend .versor VDimension)
  | .sitkVersorRigid =>
      if VDimension ≠ 3 then
        .error (.invalidArgument "A sitkVersorRigid Transform only works for 3D!")
      else
        .ok (defaultBackend .versorRigid VDimension)
  | .sitkAffine => .ok (defaultBackend .affine VDimension)
  | .sitkComposite =>
      match (match base with
             | none => Except.ok (defaultBackend .composite VDimension)
             | some b =>
                 if b.kind = ConcreteKind.composite ∧ b.dim = VDimension then
                   Except.ok b
                 else
                   Except.error
                     (SitkError.internalInconsistency
                       "Unexpectedly unable to convert to CompositeTransform")) with
      | .error e => .error e
      | .ok comp =>
          -- Load an identity transform in case no transforms are loaded.
          let comp :=
            if IsTransformQueueEmpty comp then
              AddTransformSub comp ⟨ConcreteKind.identity, [], true⟩
            else comp
          .ok (SetOnlyMostRecentTransformToOptimizeOn (SetAllTransformsToOptimizeOff comp))
  | .sitkDisplacementField =>
      .error (.invalidArgument "Incorrect constructor for transform type.")
  | .sitkIdentity => .ok (defaultBackend .identity VDimension)
  | .sitkUnknown _ => .ok (defaultBackend .identity VDimension)

/-- `Transform::Transform(unsigned int dimensions, TransformEnum type)` from
`sitkTransform.cxx` lines 197-212: dimension check then dispatch. -/
def TransformCtor (dimensions : Nat) (type : TransformEnum) : Except SitkError Backend :=
  if dimensions = 2 then
    InternalInitialization 2 type none
  else if dimensions = 3 then
    InternalInitialization 3 type none
  else
    .error (.invalidArgument "Invalid dimension for transform")

/-- `Backend.GetParameters`.  A non-composite backend reports its flat
parameter vector.  Modelled from the spec for composites:
`itk::CompositeTransform` exposes the parameters of sub-transforms flagged
to-optimize, and an empty composite has undefined behavior in the external
library and must be avoided. -/
def Backend.GetParameters (b : Backend) : Except SitkError (List Int) :=
  if b.kind = ConcreteKind.composite then
    if b.queue.isEmpty then
      .error (.unsupported "empty composite transform has undefined behavior")
    else
      .ok (((b.queue.filter (fun t => t.toOptimize)).map SubTransform.params).flatten)
  else
    .ok b.params

/-- Projection used to state properties of the composite dispatch: the
to-optimize flags of the resulting queue, or `none` on a dispatch error. -/
def compQueueFlags (r : Except SitkError Backend) : Option (List Bool) :=
  match r with
  | .ok c => some (c.queue.map SubTransform.toOptimize)
  | .error _ => none

/-- Projection used to state properties of the composite dispatch: the kind
and parameters of each queued sub-transform, or `none` on a dispatch error. -/
def compQueueKP (r : Except SitkError Backend) : Option (List (ConcreteKind × List Int)) :=
  match r with
  | .ok c => some (c.queue.map (fun t => (t.kind, t.params)))
  | .error _ => none

/-- `true` exactly when the construction succeeded. -/
def exceptOk (r : Except SitkError Backend) : Bool :=
  match r with
  | .ok _ => true
  | .error _ => false

/-- The transform kinds of the dispatch table (spec §4.2): every enum value
handled by a non-default, non-error case of the switch plus `sitkIdentity`;
the displacement field is constructed via the separate image-adopting path. -/
def supportedKinds : List TransformEnum :=
  [.sitkIdentity, .sitkTranslation, .sitkScale, .sitkScaleLogarithmic,
   .sitkEuler, .sitkSimilarity, .sitkQuaternionRigid, .sitkVersor,
   .sitkVersorRigid, .sitkAffine, .sitkComposite]

/-- The kinds the dispatch restricts to dimension 3. -/
def threeDOnlyKinds : List TransformEnum :=
  [.sitkQuaternionRigid, .sitkVersor, .sitkVersorRigid]

/-! ### The backend heap

A `Transform` handle owns one `PimpleTransform`, which holds a reference-counted
smart pointer to the concrete ITK transform object.  `sitkPimpleTransform.hxx`
is repository code not among the given sources, so the pimple layer is modelled
from the spec (§4.2): `ShallowCopy` yields a new owner of the same shared
backend with the shared count incremented, `DeepCopy` yields an independent
clone with count 1, `GetReferenceCount` reports the shared count.  The model
flattens handle → pimple → ITK object to handle → address: a heap maps
addresses to `(Backend, shared count)`, a handle is the address of its backend,
and the count is the number of pimple owners of that backend. -/

/-- The heap of live backends: `mem a` is the backend stored at address `a`
with its shared reference count, `next` the next never-used address. -/
structure HState where
  mem : Nat → Option (Backend × Nat)
  next : Nat

/-- Addresses at or beyond `next` are unallocated. -/
def HState.WF (s : HState) : Prop :=
  ∀ a, s.next ≤ a → s.mem a = none

/-- Allocate a fresh backend with reference count 1 (fresh construction, and
the clone made by `DeepCopy`). -/
def HState.alloc (s : HState) (b : Backend) : HState × Nat :=
  (⟨fun x => if x = s.next then some (b, 1) else s.mem x, s.next + 1⟩, s.next)

/-- Modelled from the spec: `PimpleTransformBase::ShallowCopy` — one more owner
of the shared backend, count incremented. -/
def HState.incref (s : HState) (a : Nat) : HState :=
  ⟨fun x =>
    if x = a then
      match s.mem a with
      | some (b, n) => some (b, n + 1)
      | none => none
    else s.mem x, s.next⟩

/-- Deleting a pimple: one owner fewer; the backend is destroyed when the last
owner releases it. -/
def HState.decref (s : HState) (a : Nat) : HState :=
  ⟨fun x =>
    if x = a then
      match s.mem a with
      | some (b, n) => if n ≤ 1 then none else some (b, n - 1)
      | none => none
    else s.mem x, s.next⟩

/-- Modelled from the spec: `PimpleTransformBase::GetReferenceCount` — the
shared count of the backend at `a` (0 if freed). -/
def HState.refcount (s : HState) (a : Nat) : Nat :=
  match s.mem a with
  | some (_, n) => n
  | none => 0

/-- The backend currently stored at `a`, if still allocated. -/
def HState.data (s : HState) (a : Nat) : Option Backend :=
  match s.mem a with
  | some (b, _) => some b
  | none => none

/-- In-place update of the backend stored at `a` (the reference count is
unchanged; a write to a freed address leaves the heap unchanged). -/
def HState.writeData (s : HState) (a : Nat) (f : Backend → Backend) : HState :=
  ⟨fun x =>
    if x = a then
      match s.mem a with
      | some (b, n) => some (f b, n)
      | none => none
    else s.mem x, s.next⟩

/-! ### The Transform handle operations (`sitkTransform.cxx`) -/

/-- `Transform::Transform(const Transform &txf)` lines 221-225:
`m_PimpleTransform = txf.m_PimpleTransform->ShallowCopy()` — the new handle
shares the source's backend. -/
def Transform.copyConstruct (s : HState) (src : Nat) : HState × Nat :=
  (s.incref src, src)

/-- `Transform::operator=` lines 227-235: first take a shallow copy of the
source's backend into `temp`, then delete the destination's old pimple, then
install `temp`. -/
def Transform.assign (s : HState) (dst src : Nat) : HState × Nat :=
  ((s.incref src).decref dst, src)

/-- `Transform::~Transform` lines 215-219: release this handle's pimple. -/
def Transform.destruct (s : HState) (h : Nat) : HState :=
  s.decref h

/-- `Transform::MakeUniqueForWrite` lines 292-300: when the backend is shared
(`GetReferenceCount() > 1`), deep-copy it, delete the old pimple and install
the copy; the handle's address changes to the fresh clone.  Note the source
assigns `m_PimpleTransform` directly — it performs no rebinding of facade
accessor slots. -/
def Transform.MakeUniqueForWrite (s : HState) (h : Nat) : HState × Nat :=
  if 1 < s.refcount h then
    match s.data h with
    | some b =>
        let t := s.alloc b
        ((t.1).decref h, t.2)
    | none => (s, h)
  else
    (s, h)

/-- `Transform::SetParameters` lines 413-418: `MakeUniqueForWrite` then
delegate the write to the (now uniquely owned) backend. -/
def Transform.SetParameters (s : HState) (h : Nat) (p : List Int) : HState × Nat :=
  let t := Transform.MakeUniqueForWrite s h
  ((t.1).writeData t.2 (fun b => { b with params := p }), t.2)

/-- `Transform::SetFixedParameters` lines 426-431: `MakeUniqueForWrite` then
delegate the write to the (now uniquely owned) backend. -/
def Transform.SetFixedParameters (s : HState) (h : Nat) (p : List Int) : HState × Nat :=
  let t := Transform.MakeUniqueForWrite s h
  ((t.1).writeData t.2 (fun b => { b with fixedParams := p }), t.2)

/-- `Transform::GetParameters` lines 420-424: read-only snapshot, no
copy-on-write (`none` would mean a freed backend). -/
def Transform.GetParameters (s : HState) (h : Nat) : Option (List Int) :=
  (s.data h).map Backend.params

/-- `Transform::GetFixedParameters` lines 433-437: read-only snapshot. -/
def Transform.GetFixedParameters (s : HState) (h : Nat) : Option (List Int) :=
  (s.data h).map Backend.fixedParams

/-- `Transform::GetDimension` lines 407-411. -/
def Transform.GetDimension (s : HState) (h : Nat) : Option Nat :=
  (s.data h).map Backend.dim

/-- The heap-level constructor: on dispatch success the fresh backend is
allocated with reference count 1. -/
def TransformCtorH (s : HState) (dimensions : Nat) (type : TransformEnum) :
    Except SitkError (HState × Nat) :=
  match TransformCtor dimensions type with
  | .ok b => .ok (s.alloc b)
  | .error e => .error e

/-! ### The Euler3D facade (`sitkEuler3DTransform.cxx`)

Each `m_pf*` member is an `nsstd::bind` closure capturing a raw pointer to the
concrete `itk::Euler3DTransform<double>` object; a slot is modelled as the
address of the backend it was bound to, or `none` for the explicit unbound
(NULL) state. -/

/-- The ten bound-accessor slots of `Euler3DTransform`. -/
structure EulerSlots where
  m_pfSetCenter : Option Nat
  m_pfGetCenter : Option Nat
  m_pfSetTranslation : Option Nat
  m_pfGetTranslation : Option Nat
  m_pfSetRotation : Option Nat
  m_pfGetAngleX : Option Nat
  m_pfGetAngleY : Option Nat
  m_pfGetAngleZ : Option Nat
  m_pfSetComputeZYX : Option Nat
  m_pfGetComputeZYX : Option Nat
deriving DecidableEq, Repr

/-- All ten slots bound to the object at address `a`
(`Euler3DTransform::InternalInitialization(TransformType *t)` lines 157-179). -/
def boundSlots (a : Nat) : EulerSlots :=
  ⟨some a, some a, some a, some a, some a, some a, some a, some a, some a, some a⟩

/-- All ten slots set to NULL
(`Euler3DTransform::InternalInitialization(itk::TransformBase*)` lines 144-153). -/
def unboundSlots : EulerSlots :=
  ⟨none, none, none, none, none, none, none, none, none, none⟩

/-- `Euler3DTransform::InternalInitialization(itk::TransformBase *transform)`
lines 132-154: `dynamic_cast` the backend's ITK object to
`itk::Euler3DTransform<double>`; on success bind every slot to it, otherwise
set every slot to NULL. -/
def Euler3DTransform.InternalInitialization (s : HState) (a : Nat) : EulerSlots :=
  match s.data a with
  | some b => if b.kind = ConcreteKind.euler3D then boundSlots a else unboundSlots
  | none => unboundSlots

/-- The caller-facing Euler3D facade: the generic handle plus its slots. -/
structure Euler3D where
  handle : Nat
  slots : EulerSlots
deriving DecidableEq, Repr

/-- Result of a facade call: a value, a surfaced error, or undefined behavior
from dereferencing a freed backend through a stale slot. -/
inductive CallResult (α : Type) where
  | ok (val : α)
  | err (e : SitkError)
  | crash
deriving DecidableEq, Repr

/-- Extract the value of a successful call, with a default for the other
outcomes (used only to chain scenario steps that are proven to succeed). -/
def CallResult.getD {α : Type} (r : CallResult α) (d : α) : α :=
  match r with
  | .ok v => v
  | _ => d

/-- `Euler3DTransform::Euler3DTransform()` lines 28-32: `Transform(3, sitkEuler)`
then `InternalInitialization(GetITKBase())`.  The base-class construction at
`(3, sitkEuler)` always succeeds; the error arm is unreachable. -/
def Euler3DTransform.ctor (s : HState) : HState × Euler3D :=
  match TransformCtorH s 3 .sitkEuler with
  | .ok t => (t.1, ⟨t.2, Euler3DTransform.InternalInitialization t.1 t.2⟩)
  | .error _ => (s, ⟨0, unboundSlots⟩)

/-- `Euler3DTransform::GetAngleX` lines 78-81: call through the bound slot.
Modelled from the spec for the two non-value outcomes: a call through an
unbound (NULL) slot fails with an Unsupported error (§4.3), and a call through
a slot whose captured object has been freed is undefined behavior.  The angle
about X is the first of the six Euler parameters (external library layout:
3 rotation angles then 3 translations). -/
def Euler3DTransform.GetAngleX (s : HState) (e : Euler3D) : CallResult Int :=
  match e.slots.m_pfGetAngleX with
  | none => .err (.unsupported "Transform does not support GetAngleX")
  | some t =>
      match s.data t with
      | some b => .ok (b.params.getD 0 0)
      | none => .crash

/-- `Euler3DTransform::GetCenter` lines 73-76: call through the bound slot.
The center is the fixed-parameter vector of an Euler transform (spec §3). -/
def Euler3DTransform.GetCenter (s : HState) (e : Euler3D) : CallResult (List Int) :=
  match e.slots.m_pfGetCenter with
  | none => .err (.unsupported "Transform does not support GetCenter")
  | some t =>
      match s.data t with
      | some b => .ok b.fixedParams
      | none => .crash

/-- `Euler3DTransform::SetCenter` lines 66-71: `this->MakeUniqueForWrite()`
(which may replace the handle's backend with a deep copy) and then the call
through `m_pfSetCenter` — through the slots as they were bound before, since
`MakeUniqueForWrite` performs no rebinding.  The write lands on the object the
slot captured and sets its center, i.e. its fixed parameters. -/
def Euler3DTransform.SetCenter (s : HState) (e : Euler3D) (c : List Int) :
    CallResult (HState × Euler3D) :=
  let m := Transform.MakeUniqueForWrite s e.handle
  match e.slots.m_pfSetCenter with
  | none => .err (.unsupported "Transform does not support SetCenter")
  | some t =>
      match (m.1).data t with
      | some _ => .ok ((m.1).writeData t (fun b => { b with fixedParams := c }), ⟨m.2, e.slots⟩)
      | none => .crash

/-- `Euler3DTransform::SetRotation` lines 94-99: `this->MakeUniqueForWrite()`
then the call through `m_pfSetRotation` (no rebinding, as in `SetCenter`).
The write sets the three angle entries of the captured object's parameters and
keeps its translation entries. -/
def Euler3DTransform.SetRotation (s : HState) (e : Euler3D)
    (angleX angleY angleZ : Int) : CallResult (HState × Euler3D) :=
  let m := Transform.MakeUniqueForWrite s e.handle
  match e.slots.m_pfSetRotation with
  | none => .err (.unsupported "Transform does not support SetRotation")
  | some t =>
      match (m.1).data t with
      | some _ =>
          .ok ((m.1).writeData t
                 (fun b => { b with params := [angleX, angleY, angleZ] ++ b.params.drop 3 }),
               ⟨m.2, e.slots⟩)
      | none => .crash

/-! ### Displacement-field construction (`sitkTransform.cxx` lines 238-288)

The `Image` class is repository code not among the given sources; it is
modelled from the spec (§4.1): an image has a pixel representation, a
dimension, a per-pixel component count, and a backing data buffer, identified
here by a buffer id so that adoption (move) is distinguishable from copying. -/

/-- Modelled from the spec: the pixel representations relevant to the
displacement-field path — the member-function factory registers only
`VectorPixelID<double>` at dimensions 2 and 3. -/
inductive PixelID where
  | vectorFloat64
  | scalarFloat64
  | other (code : Nat)
deriving DecidableEq, Repr

/-- Modelled from the spec: the caller-facing image handle. -/
structure Image where
  pixelID : PixelID
  dimension : Nat
  components : Nat
  buffer : Nat
deriving DecidableEq, Repr

/-- Modelled from the spec: `Image()` — the empty/identity placeholder image
the caller's handle is reset to (`inImage = Image()`); buffer id 0 is reserved
for it. -/
def emptyImage : Image :=
  ⟨PixelID.scalarFloat64, 2, 1, 0⟩

/-- `Transform::Transform(Image &displacement, TransformEnum txType)` lines
238-263 together with `InternalDisplacementInitialization` lines 265-288: check
the requested type, dispatch on the image's pixel id and dimension (the factory
only supports vector-of-double pixels with component count equal to the
dimension, at dimensions 2 and 3), adopt (move) the image's backing buffer into
a fresh displacement-field backend, and reset the caller's image handle to the
empty placeholder.  Returns the new heap, the handle, and the caller's image
as it is after the call. -/
def Transform.ctorDisplacement (s : HState) (img : Image) (txType : TransformEnum) :
    Except SitkError (HState × Nat × Image) :=
  if txType ≠ TransformEnum.sitkDisplacementField then
    .error (.invalidArgument "Expected sitkDisplacementField for the Transformation type!")
  else if img.pixelID = PixelID.vectorFloat64 ∧ (img.dimension = 2 ∨ img.dimension = 3)
          ∧ img.components = img.dimension then
    let t := s.alloc
      { kind := .displacementField, dim := img.dimension, params := [],
        fixedParams := [], queue := [], field := some img.buffer }
    .ok (t.1, t.2, emptyImage)
  else
    .error (.invalidArgument "Pixel type is not supported for displacement initialization")

/-- Projection used to state the ownership-transfer property: the adopted
buffer id of the constructed backend and the caller's image afterwards, or
`none` on a construction error. -/
def dispResult (r : Except SitkError (HState × Nat × Image)) : Option (Option Nat × Image) :=
  match r with
  | .ok (s', h, i) => some ((s'.data h).bind Backend.field, i)
  | .error _ => none

/-! ### A concrete copy-then-mutate run of the Euler3D facade

The steps of the spec's accessor-rebinding test: construct an `Euler3DTransform`,
set a rotation, take a sharing `Transform` copy, then call `SetCenter` (which
triggers the copy-on-write deep copy), then destroy the sharing copy.  Each
step below is proven to take the successful arm by the theorem that consumes
these definitions. -/

/-- The empty heap. -/
def emptyHeap : HState :=
  ⟨fun _ => none, 0⟩

/-- A heap holding a single backend at address 0 with reference count 1 (the
state right after one fresh construction). -/
def oneBackendHeap (b : Backend) : HState :=
  ⟨fun x => if x = 0 then some (b, 1) else none, 1⟩

/-- Step 1: `Euler3DTransform e;` — backend at address 0, slots bound to 0. -/
def run1 : HState × Euler3D :=
  Euler3DTransform.ctor emptyHeap

/-- Step 2: `e.SetRotation(5, 0, 0);` — sole owner, written in place. -/
def run2 : HState × Euler3D :=
  (Euler3DTransform.SetRotation run1.1 run1.2 5 0 0).getD run1

/-- Step 3: `Transform t(e);` — a sharing shallow copy; count of backend 0
rises to 2. -/
def run3 : HState × Nat :=
  Transform.copyConstruct run2.1 run2.2.handle

/-- Step 4: `e.SetCenter({1, 2, 3});` — the shared count triggers the
copy-on-write deep copy inside `MakeUniqueForWrite`. -/
def run4 : HState × Euler3D :=
  (Euler3DTransform.SetCenter run3.1 run2.2 [1, 2, 3]).getD run2

/-- Step 5: the sharing copy `t` is destroyed. -/
def run5 : HState :=
  Transform.destruct run4.1 run3.2

end Sitk

namespace Sitk

/-! ## Helper lemmas -/

theorem incref_mem_self (s : HState) (a : Nat) (bk : Backend) (n : Nat)
    (ha : s.mem a = some (bk, n)) : (s.incref a).mem a = some (bk, n + 1) := by
  simp [HState.incref, ha]

theorem incref_mem_other (s : HState) (a x : Nat) (hx : x ≠ a) :
    (s.incref a).mem x = s.mem x := by
  simp [HState.incref, hx]

theorem writeData_mem_other (s : HState) (a x : Nat) (f : Backend → Backend)
    (hx : x ≠ a) : (s.writeData a f).mem x = s.mem x := by
  simp [HState.writeData, hx]

theorem valid_lt_next (s : HState) (a : Nat) (bk : Backend) (n : Nat)
    (hWF : s.WF) (ha : s.mem a = some (bk, n)) : a < s.next := by
  by_contra h
  rw [hWF a (Nat.le_of_not_lt h)] at ha
  cases ha

theorem oneBackendHeap_WF (b : Backend) : (oneBackendHeap b).WF := by
  intro x hx
  have hx0 : x ≠ 0 := by
    simp only [oneBackendHeap] at hx
    omega
  simp [oneBackendHeap, hx0]

theorem makeUnique_shared_handle (s : HState) (a : Nat) (bk : Backend) (n : Nat)
    (ha : s.mem a = some (bk, n)) (hn : 2 ≤ n) :
    (Transform.MakeUniqueForWrite s a).2 = s.next := by
  have hrc : s.refcount a = n := by simp [HState.refcount, ha]
  have hd : s.data a = some bk := by simp [HState.data, ha]
  simp [Transform.MakeUniqueForWrite, hrc, hd, HState.alloc, Nat.lt_of_lt_of_le Nat.one_lt_two hn]

theorem makeUnique_shared_mem (s : HState) (a : Nat) (bk : Backend) (n : Nat)
    (ha : s.mem a = some (bk, n)) (hn : 2 ≤ n) (hlt : a < s.next) (x : Nat) :
    ((Transform.MakeUniqueForWrite s a).1).mem x =
      if x = a then some (bk, n - 1)
      else if x = s.next then some (bk, 1)
      else s.mem x := by
  have hrc : s.refcount a = n := by simp [HState.refcount, ha]
  have hd : s.data a = some bk := by simp [HState.data, ha]
  have hne : a ≠ s.next := Nat.ne_of_lt hlt
  simp only [Transform.MakeUniqueForWrite, hrc, hd,
    if_pos (Nat.lt_of_lt_of_le Nat.one_lt_two hn)]
  simp only [HState.alloc, HState.decref]
  by_cases hxa : x = a
  · subst hxa
    simp [hne, ha, Nat.not_le.mpr (Nat.lt_of_lt_of_le Nat.one_lt_two hn)]
  · simp [hxa]

theorem makeUnique_shared_next (s : HState) (a : Nat) (bk : Backend) (n : Nat)
    (ha : s.mem a = some (bk, n)) (hn : 2 ≤ n) :
    ((Transform.MakeUniqueForWrite s a).1).next = s.next + 1 := by
  have hrc : s.refcount a = n := by simp [HState.refcount, ha]
  have hd : s.data a = some bk := by simp [HState.data, ha]
  simp [Transform.MakeUniqueForWrite, hrc, hd, HState.alloc, HState.decref,
    Nat.lt_of_lt_of_le Nat.one_lt_two hn]

theorem markOnlyLast_map_kp (l : List SubTransform) :
    (markOnlyLast l).map (fun t => (t.kind, t.params)) =
      l.map (fun t => (t.kind, t.params)) := by
  induction l with
  | nil => rfl
  | cons t rest ih =>
      cases rest with
      | nil => rfl
      | cons u rest' => simp only [markOnlyLast, List.map_cons] at ih ⊢; rw [ih]

theorem markOnlyLast_flags (l : List SubTransform) (h : l ≠ []) :
    (markOnlyLast l).map SubTransform.toOptimize =
      List.replicate (l.length - 1) false ++ [true] := by
  induction l with
  | nil => exact absurd rfl h
  | cons t rest ih =>
      cases rest with
      | nil => rfl
      | cons u rest' =>
          have hr := ih (by simp)
          simp only [markOnlyLast, List.map_cons] at hr ⊢
          rw [hr]
          simp [List.replicate_succ]

/-! ## Claim theorems -/

/-- C3: `Transform(dimension, kind)` rejects every dimension other than 2 and 3
with an InvalidArgument error for every kind; the 3D-only kinds
(quaternion-rigid, versor, versor-rigid) are also rejected at dimension 2; all
other supported (kind, dimension ∈ {2,3}) pairs construct successfully, and a
successful construction allocates a fresh backend with reference count 1. -/
theorem construction_dimension_validation :
    (∀ (k : TransformEnum) (d : Nat), d ≠ 2 → d ≠ 3 →
        TransformCtor d k = .error (.invalidArgument "Invalid dimension for transform")) ∧
    (TransformCtor 2 .sitkQuaternionRigid =
        .error (.invalidArgument "A sitkQuaternionRigid Transform only works for 3D!")) ∧
    (TransformCtor 2 .sitkVersor =
        .error (.invalidArgument "A sitkVersor Transform only works for 3D!")) ∧
    (TransformCtor 2 .sitkVersorRigid =
        .error (.invalidArgument "A sitkVersorRigid Transform only works for 3D!")) ∧
    (∀ k ∈ supportedKinds, ∀ d : Nat, d = 2 ∨ d = 3 → (k ∈ threeDOnlyKinds → d = 3) →
        exceptOk (TransformCtor d k) = true) ∧
    (∀ (s : HState) (b : Backend), ((s.alloc b).1).refcount (s.alloc b).2 = 1) := by
  refine ⟨?_, rfl, rfl, rfl, ?_, ?_⟩
  · intro k d h2 h3
    simp [TransformCtor, h2, h3]
  · intro k hk d hd h3
    fin_cases hk <;> rcases hd with rfl | rfl <;>
      first
        | rfl
        | exact absurd (h3 (by decide)) (by decide)
  · intro s b
    simp [HState.alloc, HState.refcount]

/-- Witness for C3 at concrete inputs: dimension 4 is rejected for the affine
kind, versor at dimension 2 is rejected, versor at dimension 3 constructs, and
a fresh allocation has reference count 1. -/
theorem construction_dimension_validation_witness :
    ((4 : Nat) ≠ 2 ∧ (4 : Nat) ≠ 3 ∧ TransformEnum.sitkVersor ∈ supportedKinds ∧
      ((2 : Nat) = 2 ∨ (2 : Nat) = 3) ∧ ((3 : Nat) = 2 ∨ (3 : Nat) = 3)) ∧
    TransformCtor 4 .sitkAffine =
      .error (.invalidArgument "Invalid dimension for transform") ∧
    exceptOk (TransformCtor 3 .sitkVersor) = true ∧
    ((emptyHeap.alloc (defaultBackend .affine 2)).1).refcount
      (emptyHeap.alloc (defaultBackend .affine 2)).2 = 1 :=
  ⟨by decide,
   construction_dimension_validation.1 .sitkAffine 4 (by decide) (by decide),
   construction_dimension_validation.2.2.2.2.1 .sitkVersor (by decide) 3 (by decide)
     (fun _ => rfl),
   construction_dimension_validation.2.2.2.2.2 emptyHeap (defaultBackend .affine 2)⟩

/-- C4: `Transform(d, sitkComposite)` in build-fresh mode (no external object)
leaves the composite with exactly one sub-transform, an identity, so an
immediately following `GetParameters` succeeds and reports an identity
transform's (empty) parameter vector. -/
theorem composite_never_empty :
    TransformCtor 2 .sitkComposite =
      .ok ⟨.composite, 2, [], [], [⟨.identity, [], true⟩], none⟩ ∧
    TransformCtor 3 .sitkComposite =
      .ok ⟨.composite, 3, [], [], [⟨.identity, [], true⟩], none⟩ ∧
    Backend.GetParameters ⟨.composite, 3, [], [], [⟨.identity, [], true⟩], none⟩ =
      .ok (defaultBackend .identity 3).params ∧
    (defaultBackend .identity 3).params = [] :=
  ⟨rfl, rfl, rfl, rfl⟩

/-- Counterexample to C5: handing the dispatch an already-constructed external
composite with an empty queue does NOT wrap it unchanged — the empty-composite
guard runs in adopt-existing mode too, and an identity sub-transform IS
inserted (queue goes from empty to `[identity]`). -/
theorem adopt_existing_guard_cex :
    (defaultBackend .composite 3).queue = [] ∧
    compQueueKP (InternalInitialization 3 .sitkComposite (some (defaultBackend .composite 3)))
      = some [(ConcreteKind.identity, [])] :=
  ⟨rfl, rfl⟩

/-- C5 (amended): in adopt-existing mode the dispatch wraps the external
composite but still applies the empty-composite guard: an adopted composite
with an empty queue receives one identity sub-transform, while a non-empty
adopted composite is wrapped with its sub-transforms unchanged (same kinds and
parameters, nothing inserted; only the to-optimize flags are reconfigured). -/
theorem adopt_existing_guarded (d : Nat) (b : Backend)
    (hk : b.kind = ConcreteKind.composite) (hdim : b.dim = d) :
    (b.queue = [] →
      compQueueKP (InternalInitialization d .sitkComposite (some b)) =
        some [(ConcreteKind.identity, [])]) ∧
    (b.queue ≠ [] →
      compQueueKP (InternalInitialization d .sitkComposite (some b)) =
        some (b.queue.map (fun t => (t.kind, t.params)))) := by
  constructor
  · intro hq
    simp [InternalInitialization, hk, hdim, IsTransformQueueEmpty, hq, AddTransformSub,
      SetAllTransformsToOptimizeOff, SetOnlyMostRecentTransformToOptimizeOn,
      compQueueKP, markOnlyLast]
  · intro hq
    simp only [InternalInitialization, hk, hdim, and_self, if_true, IsTransformQueueEmpty,
      List.isEmpty_eq_true, hq, if_false,
      SetAllTransformsToOptimizeOff, SetOnlyMostRecentTransformToOptimizeOn, compQueueKP]
    rw [markOnlyLast_map_kp, List.map_map]
    rfl

/-- Witness for C5 (amended) at a concrete adopted composite holding a
translation and an affine sub-transform: the wrap inserts nothing and keeps
both sub-transforms' kinds and parameters. -/
theorem adopt_existing_guarded_witness :
    ((⟨.composite, 3, [], [],
        [⟨.translation, [7], true⟩, ⟨.affine, [1, 2], false⟩], none⟩ : Backend).kind =
      ConcreteKind.composite ∧
     (⟨.composite, 3, [], [],
        [⟨.translation, [7], true⟩, ⟨.affine, [1, 2], false⟩], none⟩ : Backend).dim = 3) ∧
    (((⟨.composite, 3, [], [],
        [⟨.translation, [7], true⟩, ⟨.affine, [1, 2], false⟩], none⟩ : Backend).queue = [] →
      compQueueKP (InternalInitialization 3 .sitkComposite
          (some ⟨.composite, 3, [], [],
            [⟨.translation, [7], true⟩, ⟨.affine, [1, 2], false⟩], none⟩)) =
        some [(ConcreteKind.identity, [])]) ∧
     ((⟨.composite, 3, [], [],
        [⟨.translation, [7], true⟩, ⟨.affine, [1, 2], false⟩], none⟩ : Backend).queue ≠ [] →
      compQueueKP (InternalInitialization 3 .sitkComposite
          (some ⟨.composite, 3, [], [],
            [⟨.translation, [7], true⟩, ⟨.affine, [1, 2], false⟩], none⟩)) =
        some [(ConcreteKind.translation, [7]), (ConcreteKind.affine, [1, 2])])) :=
  ⟨by decide,
   adopt_existing_guarded 3
     ⟨.composite, 3, [], [], [⟨.translation, [7], true⟩, ⟨.affine, [1, 2], false⟩], none⟩
     rfl rfl⟩

/-- C6: in both composite dispatch modes, after construction exactly the most
recently added sub-transform of the composite is flagged optimizable and every
other sub-transform is not (build-fresh: the single identity; adopt-existing:
the last of the adopted queue, or the inserted identity when it was empty). -/
theorem composite_to_optimize (d : Nat) (b : Backend)
    (hd : d = 2 ∨ d = 3) (hk : b.kind = ConcreteKind.composite) (hdim : b.dim = d) :
    compQueueFlags (InternalInitialization d .sitkComposite none) = some [true] ∧
    (b.queue = [] →
      compQueueFlags (InternalInitialization d .sitkComposite (some b)) = some [true]) ∧
    (b.queue ≠ [] →
      compQueueFlags (InternalInitialization d .sitkComposite (some b)) =
        some (List.replicate (b.queue.length - 1) false ++ [true])) := by
  refine ⟨rfl, ?_, ?_⟩
  · intro hq
    simp [InternalInitialization, hk, hdim, IsTransformQueueEmpty, hq, AddTransformSub,
      SetAllTransformsToOptimizeOff, SetOnlyMostRecentTransformToOptimizeOn,
      compQueueFlags, markOnlyLast]
  · intro hq
    simp only [InternalInitialization, hk, hdim, and_self, if_true, IsTransformQueueEmpty,
      List.isEmpty_eq_true, hq, if_false,
      SetAllTransformsToOptimizeOff, SetOnlyMostRecentTransformToOptimizeOn, compQueueFlags]
    rw [markOnlyLast_flags _ (by simpa using hq)]
    simp

/-- Witness for C6 at dimension 3 with a concrete adopted two-element
composite: only the second (most recent) sub-transform is optimizable, and the
build-fresh composite's single identity is optimizable. -/
theorem composite_to_optimize_witness :
    (((3 : Nat) = 2 ∨ (3 : Nat) = 3) ∧
     (⟨.composite, 3, [], [],
        [⟨.translation, [7], false⟩, ⟨.affine, [1, 2], true⟩], none⟩ : Backend).kind =
       ConcreteKind.composite) ∧
    compQueueFlags (InternalInitialization 3 .sitkComposite none) = some [true] ∧
    ((⟨.composite, 3, [], [],
        [⟨.translation, [7], false⟩, ⟨.affine, [1, 2], true⟩], none⟩ : Backend).queue ≠ [] →
      compQueueFlags (InternalInitialization 3 .sitkComposite
          (some ⟨.composite, 3, [], [],
            [⟨.translation, [7], false⟩, ⟨.affine, [1, 2], true⟩], none⟩)) =
        some (List.replicate 1 false ++ [true])) :=
  ⟨by decide,
   (composite_to_optimize 3
      ⟨.composite, 3, [], [], [⟨.translation, [7], false⟩, ⟨.affine, [1, 2], true⟩], none⟩
      (Or.inr rfl) rfl rfl).1,
   (composite_to_optimize 3
      ⟨.composite, 3, [], [], [⟨.translation, [7], false⟩, ⟨.affine, [1, 2], true⟩], none⟩
      (Or.inr rfl) rfl rfl).2.2⟩

/-- C7: for dimensions 2 and 3, an unrecognized transform-kind enum value — an
integer outside the declared enumerators — and `sitkIdentity` itself both fall
to the dispatch switch's default label, which builds an identity-transform
backend of the requested dimension instead of failing. -/
theorem unknown_kind_fallback (d n : Nat) (hd : d = 2 ∨ d = 3) :
    TransformCtor d (.sitkUnknown n) = .ok (defaultBackend .identity d) ∧
    TransformCtor d .sitkIdentity = .ok (defaultBackend .identity d) := by
  rcases hd with rfl | rfl <;> exact ⟨rfl, rfl⟩

/-- Witness for C7: the out-of-range enum value 99 at dimension 3 silently
builds a 3D identity backend. -/
theorem unknown_kind_fallback_witness :
    ((3 : Nat) = 2 ∨ (3 : Nat) = 3) ∧
    TransformCtor 3 (.sitkUnknown 99) = .ok (defaultBackend .identity 3) ∧
    TransformCtor 3 .sitkIdentity = .ok (defaultBackend .identity 3) :=
  ⟨by decide, unknown_kind_fallback 3 99 (by decide)⟩

/-- C8: when the Euler3D facade's binding procedure runs against a backend
whose ITK object is not an `Euler3DTransform<double>`, every bound-accessor
slot is set to the unbound (NULL) sentinel, and a subsequent `GetAngleX` or
`GetCenter` through the unbound slot fails with an Unsupported error — neither
a value nor undefined behavior. -/
theorem unbound_slots_unsupported (s : HState) (a : Nat) (b : Backend)
    (hb : s.data a = some b) (hk : b.kind ≠ ConcreteKind.euler3D) :
    Euler3DTransform.InternalInitialization s a = unboundSlots ∧
    Euler3DTransform.GetAngleX s ⟨a, Euler3DTransform.InternalInitialization s a⟩ =
      .err (.unsupported "Transform does not support GetAngleX") ∧
    Euler3DTransform.GetCenter s ⟨a, Euler3DTransform.InternalInitialization s a⟩ =
      .err (.unsupported "Transform does not support GetCenter") := by
  have h1 : Euler3DTransform.InternalInitialization s a = unboundSlots := by
    simp [Euler3DTransform.InternalInitialization, hb, hk]
  rw [h1]
  exact ⟨rfl, rfl, rfl⟩

/-- Witness for C8: binding a facade against a 3D affine backend leaves all
slots unbound and the accessor calls fail with an Unsupported error. -/
theorem unbound_slots_unsupported_witness :
    ((⟨fun x => if x = 0 then some (defaultBackend .affine 3, 1) else none, 1⟩ : HState).data 0 =
        some (defaultBackend .affine 3) ∧
      (defaultBackend .affine 3).kind ≠ ConcreteKind.euler3D) ∧
    Euler3DTransform.InternalInitialization
        ⟨fun x => if x = 0 then some (defaultBackend .affine 3, 1) else none, 1⟩ 0 =
      unboundSlots ∧
    Euler3DTransform.GetAngleX
        ⟨fun x => if x = 0 then some (defaultBackend .affine 3, 1) else none, 1⟩
        ⟨0, Euler3DTransform.InternalInitialization
              ⟨fun x => if x = 0 then some (defaultBackend .affine 3, 1) else none, 1⟩ 0⟩ =
      .err (.unsupported "Transform does not support GetAngleX") :=
  ⟨⟨rfl, by decide⟩,
   (unbound_slots_unsupported
      ⟨fun x => if x = 0 then some (defaultBackend .affine 3, 1) else none, 1⟩ 0
      (defaultBackend .affine 3) rfl (by decide)).1,
   (unbound_slots_unsupported
      ⟨fun x => if x = 0 then some (defaultBackend .affine 3, 1) else none, 1⟩ 0
      (defaultBackend .affine 3) rfl (by decide)).2.1⟩

/-- C9: constructing a `Transform` from an image interpreted as a displacement
field adopts (moves) the image's backing buffer into the new backend — the
backend holds the very same buffer, not a copy — and the caller's image handle
is reset to the empty/identity placeholder. -/
theorem displacement_field_ownership (s : HState) (img : Image)
    (hpx : img.pixelID = PixelID.vectorFloat64)
    (hd : img.dimension = 2 ∨ img.dimension = 3)
    (hc : img.components = img.dimension) :
    dispResult (Transform.ctorDisplacement s img .sitkDisplacementField) =
      some (some img.buffer, emptyImage) := by
  simp [Transform.ctorDisplacement, hpx, hd, hc, dispResult, HState.alloc, HState.data]

/-- Witness for C9: a 3D vector-of-doubles image with buffer id 7 — the
constructed backend holds buffer 7 itself and the caller's image is reset. -/
theorem displacement_field_ownership_witness :
    ((⟨PixelID.vectorFloat64, 3, 3, 7⟩ : Image).pixelID = PixelID.vectorFloat64 ∧
      ((⟨PixelID.vectorFloat64, 3, 3, 7⟩ : Image).dimension = 2 ∨
       (⟨PixelID.vectorFloat64, 3, 3, 7⟩ : Image).dimension = 3) ∧
      (⟨PixelID.vectorFloat64, 3, 3, 7⟩ : Image).components =
        (⟨PixelID.vectorFloat64, 3, 3, 7⟩ : Image).dimension) ∧
    dispResult (Transform.ctorDisplacement emptyHeap
        ⟨PixelID.vectorFloat64, 3, 3, 7⟩ .sitkDisplacementField) =
      some (some 7, emptyImage) :=
  ⟨by decide,
   displacement_field_ownership emptyHeap ⟨PixelID.vectorFloat64, 3, 3, 7⟩
     rfl (by decide) rfl⟩

/-- C10: self-assignment `t = t` takes the shallow copy of the source's
backend before releasing the destination's old reference, so it leaves the
handle valid and the whole heap observably unchanged (same backend, same
parameters, fixed parameters, and dimension); and for any destination handle,
assignment never leaves the source's backend freed. -/
theorem assign_self_safe (s : HState) (a dst : Nat) (bk : Backend) (n : Nat)
    (ha : s.mem a = some (bk, n)) (hn : 1 ≤ n) :
    (Transform.assign s a a).2 = a ∧
    (∀ x, ((Transform.assign s a a).1).mem x = s.mem x) ∧
    Transform.GetParameters (Transform.assign s a a).1 a = some bk.params ∧
    Transform.GetFixedParameters (Transform.assign s a a).1 a = some bk.fixedParams ∧
    Transform.GetDimension (Transform.assign s a a).1 a = some bk.dim ∧
    ((Transform.assign s dst a).1).data a ≠ none := by
  have hmem : ∀ x, ((Transform.assign s a a).1).mem x = s.mem x := by
    intro x
    by_cases hx : x = a
    · subst hx
      simp [Transform.assign, HState.incref, HState.decref, ha, Nat.not_le.mpr hn]
    · simp [Transform.assign, HState.incref, HState.decref, hx]
  refine ⟨rfl, hmem, ?_, ?_, ?_, ?_⟩
  · simp [Transform.GetParameters, HState.data, hmem a, ha]
  · simp [Transform.GetFixedParameters, HState.data, hmem a, ha]
  · simp [Transform.GetDimension, HState.data, hmem a, ha]
  · by_cases hdst : dst = a
    · subst hdst
      simp [Transform.assign, HState.incref, HState.decref, HState.data, ha, Nat.not_le.mpr hn]
    · have hdst' : a ≠ dst := fun h => hdst h.symm
      simp [Transform.assign, HState.incref, HState.decref, HState.data, ha, hdst']

/-- Witness for C10 on a one-backend heap: self-assignment leaves the handle's
parameters, fixed parameters and dimension unchanged and the backend alive. -/
theorem assign_self_safe_witness :
    ((⟨fun x => if x = 0 then some (defaultBackend .euler3D 3, 1) else none, 1⟩ : HState).mem 0 =
        some (defaultBackend .euler3D 3, 1) ∧ (1 : Nat) ≤ 1) ∧
    (Transform.assign
        ⟨fun x => if x = 0 then some (defaultBackend .euler3D 3, 1) else none, 1⟩ 0 0).2 = 0 ∧
    Transform.GetParameters (Transform.assign
        ⟨fun x => if x = 0 then some (defaultBackend .euler3D 3, 1) else none, 1⟩ 0 0).1 0 =
      some (defaultBackend .euler3D 3).params ∧
    ((Transform.assign
        ⟨fun x => if x = 0 then some (defaultBackend .euler3D 3, 1) else none, 1⟩ 5 0).1).data 0 ≠
      none :=
  ⟨⟨rfl, by decide⟩,
   (assign_self_safe _ 0 5 (defaultBackend .euler3D 3) 1 rfl (by decide)).1,
   (assign_self_safe _ 0 5 (defaultBackend .euler3D 3) 1 rfl (by decide)).2.2.1,
   (assign_self_safe _ 0 5 (defaultBackend .euler3D 3) 1 rfl (by decide)).2.2.2.2.2⟩

/-- C1: copy-on-write discipline of `SetParameters` / `SetFixedParameters`.
Let B be a copy of handle A (same backend, shared count incremented).  A
parameter or fixed-parameter mutation through either handle first makes the
mutating handle's backend uniquely owned via a deep copy (`MakeUniqueForWrite`
leaves the mutation target with reference count exactly 1, and the mutated
address is fresh, distinct from the shared one), so the sibling's parameters
and fixed parameters are unchanged — and since A and B address the same shared
backend, the statement covers mutation through either of them.  No backend
other than the uniquely-owned mutation target is written. -/
theorem cow_discipline (s : HState) (a : Nat) (bk : Backend) (n : Nat) (p q : List Int)
    (hWF : s.WF) (ha : s.mem a = some (bk, n)) (hn : 1 ≤ n) :
    (Transform.copyConstruct s a).2 = a ∧
    ((Transform.copyConstruct s a).1).refcount a = n + 1 ∧
    (Transform.SetParameters (Transform.copyConstruct s a).1 a p).2 ≠ a ∧
    Transform.GetParameters (Transform.SetParameters (Transform.copyConstruct s a).1 a p).1 a
      = some bk.params ∧
    Transform.GetFixedParameters
        (Transform.SetParameters (Transform.copyConstruct s a).1 a p).1 a
      = some bk.fixedParams ∧
    Transform.GetParameters (Transform.SetParameters (Transform.copyConstruct s a).1 a p).1
        (Transform.SetParameters (Transform.copyConstruct s a).1 a p).2
      = some p ∧
    (Transform.SetFixedParameters (Transform.copyConstruct s a).1 a q).2 ≠ a ∧
    Transform.GetFixedParameters
        (Transform.SetFixedParameters (Transform.copyConstruct s a).1 a q).1 a
      = some bk.fixedParams ∧
    Transform.GetParameters
        (Transform.SetFixedParameters (Transform.copyConstruct s a).1 a q).1 a
      = some bk.params ∧
    Transform.GetFixedParameters
        (Transform.SetFixedParameters (Transform.copyConstruct s a).1 a q).1
        (Transform.SetFixedParameters (Transform.copyConstruct s a).1 a q).2
      = some q ∧
    ((Transform.MakeUniqueForWrite (Transform.copyConstruct s a).1 a).1).refcount
        (Transform.MakeUniqueForWrite (Transform.copyConstruct s a).1 a).2 = 1 ∧
    (∀ x, x ≠ (Transform.SetParameters (Transform.copyConstruct s a).1 a p).2 →
        ((Transform.SetParameters (Transform.copyConstruct s a).1 a p).1).data x =
          ((Transform.copyConstruct s a).1).data x) := by
  have hlt : a < s.next := valid_lt_next s a bk n hWF ha
  have hne : a ≠ s.next := Nat.ne_of_lt hlt
  set s1 : HState := (Transform.copyConstruct s a).1 with hs1
  have ha1 : s1.mem a = some (bk, n + 1) := incref_mem_self s a bk n ha
  have hnext1 : s1.next = s.next := rfl
  have h2n : 2 ≤ n + 1 := Nat.succ_le_succ hn
  have hmkh : (Transform.MakeUniqueForWrite s1 a).2 = s.next := by
    rw [makeUnique_shared_handle s1 a bk (n + 1) ha1 h2n, hnext1]
  have hmkm : ∀ x, ((Transform.MakeUniqueForWrite s1 a).1).mem x =
      if x = a then some (bk, n) else if x = s.next then some (bk, 1) else s1.mem x := by
    intro x
    rw [makeUnique_shared_mem s1 a bk (n + 1) ha1 h2n (hnext1 ▸ hlt) x, hnext1]
    simp
  have hSPh : (Transform.SetParameters s1 a p).2 = s.next := by
    simp only [Transform.SetParameters]
    exact hmkh
  have hSPm : ∀ x, ((Transform.SetParameters s1 a p).1).mem x =
      if x = s.next then some ({ bk with params := p }, 1)
      else if x = a then some (bk, n) else s1.mem x := by
    intro x
    simp only [Transform.SetParameters, HState.writeData, hmkh]
    by_cases hxn : x = s.next
    · subst hxn
      simp [hmkm s.next, Ne.symm hne]
    · simp only [if_neg hxn]
      rw [hmkm x]
      by_cases hxa : x = a
      · simp [hxa]
      · simp [hxa, hxn]
  have hSFh : (Transform.SetFixedParameters s1 a q).2 = s.next := by
    simp only [Transform.SetFixedParameters]
    exact hmkh
  have hSFm : ∀ x, ((Transform.SetFixedParameters s1 a q).1).mem x =
      if x = s.next then some ({ bk with fixedParams := q }, 1)
      else if x = a then some (bk, n) else s1.mem x := by
    intro x
    simp only [Transform.SetFixedParameters, HState.writeData, hmkh]
    by_cases hxn : x = s.next
    · subst hxn
      simp [hmkm s.next, Ne.symm hne]
    · simp only [if_neg hxn]
      rw [hmkm x]
      by_cases hxa : x = a
      · simp [hxa]
      · simp [hxa, hxn]
  refine ⟨rfl, ?_, ?_, ?_, ?_, ?_, ?_, ?_, ?_, ?_, ?_, ?_⟩
  · simp [HState.refcount, ha1]
  · rw [hSPh]
    exact Ne.symm hne
  · simp [Transform.GetParameters, HState.data, hSPm a, hne]
  · simp [Transform.GetFixedParameters, HState.data, hSPm a, hne]
  · rw [hSPh]
    simp [Transform.GetParameters, HState.data, hSPm s.next]
  · rw [hSFh]
    exact Ne.symm hne
  · simp [Transform.GetFixedParameters, HState.data, hSFm a, hne]
  · simp [Transform.GetParameters, HState.data, hSFm a, hne]
  · rw [hSFh]
    simp [Transform.GetFixedParameters, HState.data, hSFm s.next]
  · rw [hmkh]
    simp [HState.refcount, hmkm s.next, Ne.symm hne]
  · intro x hx
    rw [hSPh] at hx
    simp only [HState.data, hSPm x, if_neg hx]
    by_cases hxa : x = a
    · subst hxa
      simp [ha1]
    · simp [hxa]

/-- Witness for C1 on a one-backend heap holding a Euler3D backend with
reference count 1: after a copy, mutating through one handle leaves the other
handle's parameters and fixed parameters unchanged, and the mutation target is
uniquely owned. -/
theorem cow_discipline_witness :
    ((oneBackendHeap (defaultBackend .euler3D 3)).mem 0 =
        some (defaultBackend .euler3D 3, 1) ∧ (1 : Nat) ≤ 1) ∧
    Transform.GetParameters
        (Transform.SetParameters
          (Transform.copyConstruct (oneBackendHeap (defaultBackend .euler3D 3)) 0).1
          0 [9, 8, 7, 6, 5, 4]).1 0
      = some (defaultBackend .euler3D 3).params ∧
    Transform.GetParameters
        (Transform.SetParameters
          (Transform.copyConstruct (oneBackendHeap (defaultBackend .euler3D 3)) 0).1
          0 [9, 8, 7, 6, 5, 4]).1
        (Transform.SetParameters
          (Transform.copyConstruct (oneBackendHeap (defaultBackend .euler3D 3)) 0).1
          0 [9, 8, 7, 6, 5, 4]).2
      = some [9, 8, 7, 6, 5, 4] ∧
    ((Transform.MakeUniqueForWrite
        (Transform.copyConstruct (oneBackendHeap (defaultBackend .euler3D 3)) 0).1
        0).1).refcount
      (Transform.MakeUniqueForWrite
        (Transform.copyConstruct (oneBackendHeap (defaultBackend .euler3D 3)) 0).1
        0).2 = 1 :=
  ⟨⟨rfl, by decide⟩,
   (cow_discipline (oneBackendHeap (defaultBackend .euler3D 3)) 0 (defaultBackend .euler3D 3) 1
     [9, 8, 7, 6, 5, 4] [] (oneBackendHeap_WF _) rfl (by decide)).2.2.2.1,
   (cow_discipline (oneBackendHeap (defaultBackend .euler3D 3)) 0 (defaultBackend .euler3D 3) 1
     [9, 8, 7, 6, 5, 4] [] (oneBackendHeap_WF _) rfl (by decide)).2.2.2.2.2.1,
   (cow_discipline (oneBackendHeap (defaultBackend .euler3D 3)) 0 (defaultBackend .euler3D 3) 1
     [9, 8, 7, 6, 5, 4] [] (oneBackendHeap_WF _) rfl (by decide)).2.2.2.2.2.2.2.2.2.2.1⟩

/-- C2, evaluated at the failing input: in the run `Euler3DTransform e;`
`e.SetRotation(5,0,0);` `Transform t(e);` `e.SetCenter([1,2,3]);` the
copy-on-write deep copy inside `MakeUniqueForWrite` moves the facade's backend
from address 0 to the fresh address 1, but the accessor slots are NOT rebound
— they still target address 0 — so the center write lands on the old backend
now owned solely by the sibling `t` (mutating it), the facade's own current
backend never receives the center, a following `GetAngleX` is a stale read
against the replaced backend (it happens to return the 5 set earlier), and
once `t` is destroyed the same stale read dereferences a freed backend. -/
theorem euler_cow_stale_binding :
    run4.2.handle = 1 ∧
    run3.2 = 0 ∧
    run4.2.slots.m_pfGetAngleX = some 0 ∧
    run4.2.slots.m_pfGetAngleX ≠ some run4.2.handle ∧
    Transform.GetFixedParameters run4.1 run3.2 = some [1, 2, 3] ∧
    Transform.GetFixedParameters run4.1 run4.2.handle = some [0, 0, 0] ∧
    Euler3DTransform.GetAngleX run4.1 run4.2 = .ok 5 ∧
    Euler3DTransform.GetAngleX run5 run4.2 = .crash := by
  decide

end Sitk
